import Mathlib

/-!
Shallow embedding of `src/ProductDetails.go` (Hyperledger Fabric chaincode,
package `main`): a product provenance ledger storing `Product` records and
append-only `ProductHistory` sequences in a key-value store.

Modelling conventions:
* The Fabric world state (`ctx.GetStub()` with `GetState`/`PutState`) is a
  total map `Key → Option Val`; `GetState` never errors in the model, so the
  `StoreReadError`/`StoreWriteError` paths of the Go code are unreachable here.
* Keys are formatted in Go by `fmt.Sprintf("PRODUCT-%d", id)` and
  `fmt.Sprintf("PRODUCT-%d-HISTORY", id)`, plus one reserved counter key.
  These format strings are injective into distinct string ranges (a decimal id
  contains no letters), so the key space is embedded as an inductive type.
* Stored byte blobs are embedded as the inductive `Val`.  `json.Marshal` of a
  `Product` or of a `[]ProductHistory` is lossless for these field types
  (uint64, string, int-valued enum), so JSON blobs carry the decoded value.
  `AddProduct` writes `[]byte(product)` — a struct-to-byte-slice conversion
  that is not legal Go (the file does not compile as written) and under no
  reading produces the JSON object that `json.Unmarshal` into a `*Product`
  expects; it is embedded as the distinct blob `Val.rawProduct`, on which
  `unmarshalProduct` fails.
* Go errors are embedded by the spec taxonomy `Err`; each `fmt.Errorf` site
  maps to the kind named for it in the spec.
* Each mutating operation returns `Except Err _ × Store`, the second component
  being the world state after the call (unchanged on every error path, since
  the Go code returns before any `PutState` there).
-/

namespace ProductDetails

/-- The `ProductState` enumeration, in the Go `iota` order. -/
inductive ProductState where
  | PRODUCT_REGISTERED
  | QUALITY_ASSURANCE
  | PRODUCT_TRANSIT
  | PRODUCT_IN_INVENTORY
  | PRODUCT_SOLD
  | PRODUCT_RECALLED
  | CONSUMPTION
  | PENDING
  | VALIDATING
  | PUBLISHING
deriving DecidableEq, Repr

/-- The `Product` struct (uint64 fields embedded as `Nat`; no arithmetic is
performed on them). -/
structure Product where
  id : Nat
  name : String
  description : String
  manufactureDate : Nat
  batchNumber : String
  state : ProductState
deriving DecidableEq, Repr

/-- The `ProductHistory` struct: one provenance entry. -/
structure ProductHistory where
  timestamp : Nat
  action : String
  location : String
  state : ProductState
deriving DecidableEq, Repr

/-- The world-state key space.  `recordKey id` stands for the Go string
`"PRODUCT-<id>"`, `historyKey id` for `"PRODUCT-<id>-HISTORY"`, and
`counterKey` for the reserved identity-counter key; the three Go string
families are pairwise disjoint and injective in `id`, which the inductive
embedding reflects by constructor injectivity. -/
inductive Key where
  | recordKey (id : Nat)
  | historyKey (id : Nat)
  | counterKey
deriving DecidableEq, Repr

/-- A stored byte blob.  `jsonProduct`/`jsonHistory` are `json.Marshal`
images (lossless for these field types); `counter` is the persisted identity
counter; `rawProduct` is the non-JSON blob `[]byte(product)` that
`AddProduct` writes (see the file header). -/
inductive Val where
  | counter (n : Nat)
  | jsonProduct (p : Product)
  | jsonHistory (hs : List ProductHistory)
  | rawProduct (p : Product)
deriving DecidableEq, Repr

/-- Embeds `json.Unmarshal(bytes, *Product)`: succeeds exactly on the `json.Marshal`
image of a `Product`; any other blob (a JSON array, a number, or the raw
struct bytes) fails to parse into the struct. -/
def unmarshalProduct : Val → Option Product
  | Val.jsonProduct p => some p
  | _ => none

/-- Embeds `json.Unmarshal(bytes, *[]ProductHistory)`: succeeds exactly on the
`json.Marshal` image of a history slice.  (`LogProductMovement` unmarshals the
same bytes twice into the same slice variable; `json.Unmarshal` resets the
slice first, so the second call is idempotent and the embedding performs the
parse once.) -/
def unmarshalHistory : Val → Option (List ProductHistory)
  | Val.jsonHistory hs => some hs
  | _ => none

/-- The Fabric world state reachable through `GetState`/`PutState`. -/
abbrev Store := Key → Option Val

/-- Embeds `PutState k v`: full overwrite of key `k`. -/
def Store.put (k : Key) (v : Val) (s : Store) : Store :=
  fun k' => if k' = k then some v else s k'

/-- The empty world state. -/
def emptyStore : Store := fun _ => none

/-- The spec's error taxonomy (§7), one kind per `fmt.Errorf` site. -/
inductive Err where
  | NotFoundError
  | DecodeError
  | InvalidTransitionError
  | StoreWriteError
  | StoreReadError
deriving DecidableEq, Repr

/-- Modelled from the spec: `generateNextProductID` is called by
`AddProduct` (line 72) but is defined nowhere under `src/`.  §4.1
IdentityAllocator: read the current counter value from the store, an absent
counter counting as zero; compute `id = counter + 1`; persist the new counter
value; return `id`.  A counter key holding bytes that are not a counter value
fails to parse (`DecodeError`), the store left untouched. -/
def generateNextProductID (s : Store) : Except Err Nat × Store :=
  match s Key.counterKey with
  | none => (Except.ok 1, Store.put Key.counterKey (Val.counter 1) s)
  | some (Val.counter n) => (Except.ok (n + 1), Store.put Key.counterKey (Val.counter (n + 1)) s)
  | some _ => (Except.error Err.DecodeError, s)

/-- Embeds `AddProduct` (lines 71–92).  The Go struct literal omits the `State`
field, so it takes the Go zero value `ProductState(0) = PRODUCT_REGISTERED`.
The record is written under `"PRODUCT-<id>"` as `[]byte(product)`, embedded as
`Val.rawProduct` (see the file header).  The Go method returns only `error`;
the model also returns the allocated id (the value `generateNextProductID`
produced and the `ID` field of the record written), so that id-allocation
properties can be stated. -/
def addProduct (s : Store) (name : String) (description : String)
    (manufacturedDate : Nat) (batchNumber : String) : Except Err Nat × Store :=
  match generateNextProductID s with
  | (Except.error e, s₁) => (Except.error e, s₁)
  | (Except.ok nextProductID, s₁) =>
    let product : Product :=
      { id := nextProductID
        name := name
        description := description
        manufactureDate := manufacturedDate
        batchNumber := batchNumber
        state := ProductState.PRODUCT_REGISTERED }
    (Except.ok nextProductID,
      Store.put (Key.recordKey nextProductID) (Val.rawProduct product) s₁)

/-- Embeds `RetrieveProductDetails` (lines 98–114): read `"PRODUCT-<id>"`; absent →
`NotFoundError`; bytes that fail `json.Unmarshal` → `DecodeError`; otherwise
the parsed record.  The Go body performs no `PutState`, so the embedding is a
pure function of the store. -/
def retrieveProductDetails (s : Store) (productID : Nat) : Except Err Product :=
  match s (Key.recordKey productID) with
  | none => Except.error Err.NotFoundError
  | some productBytes =>
    match unmarshalProduct productBytes with
    | none => Except.error Err.DecodeError
    | some product => Except.ok product

/-- Embeds `UpdateProductState` (lines 120–146): fetch the record; reject
(`InvalidTransitionError`) when the current state is `PRODUCT_REGISTERED` and
the target is not `PRODUCT_TRANSIT`; otherwise rewrite the record under its
own key with the state replaced (the Go parameter holding the target state is
named `currentState`). -/
def updateProductState (s : Store) (productID : Nat) (currentState : ProductState) :
    Except Err Unit × Store :=
  match retrieveProductDetails s productID with
  | Except.error e => (Except.error e, s)
  | Except.ok product =>
    if product.state = ProductState.PRODUCT_REGISTERED ∧
        currentState ≠ ProductState.PRODUCT_TRANSIT then
      (Except.error Err.InvalidTransitionError, s)
    else
      (Except.ok (),
        Store.put (Key.recordKey productID)
          (Val.jsonProduct { product with state := currentState }) s)

/-- Embeds `LogProductMovement` (lines 152–204): fetch the record; build an entry
with `action = "Movement"`, the given location, the record's state at fetch
time, and the transaction timestamp (`GetTxTimestamp().GetSeconds()`,
embedded as the parameter `txTime`; the ill-typed line 159 and the correct
lines 165–166 assign the same value); read `"PRODUCT-<id>-HISTORY"`, an
absent key meaning the nil slice; parse failure → `DecodeError`; append the
entry and write the whole sequence back under the same key. -/
def logProductMovement (s : Store) (txTime : Nat) (productID : Nat)
    (newLocation : String) : Except Err Unit × Store :=
  match retrieveProductDetails s productID with
  | Except.error e => (Except.error e, s)
  | Except.ok product =>
    let productHistory : ProductHistory :=
      { timestamp := txTime
        action := "Movement"
        location := newLocation
        state := product.state }
    match s (Key.historyKey productID) with
    | none =>
      (Except.ok (),
        Store.put (Key.historyKey productID) (Val.jsonHistory [productHistory]) s)
    | some existingHistoryBytes =>
      match unmarshalHistory existingHistoryBytes with
      | none => (Except.error Err.DecodeError, s)
      | some productHistories =>
        (Except.ok (),
          Store.put (Key.historyKey productID)
            (Val.jsonHistory (productHistories ++ [productHistory])) s)

/-- One `AddProduct` argument tuple: name, description, manufactureDate,
batchNumber. -/
abbrev RegArgs := String × String × Nat × String

/-- Sequential driver: perform one `AddProduct` call per argument tuple,
collecting the allocated ids in call order; abort on the first error. -/
def registerSeq (s : Store) : List RegArgs → Except Err (List Nat × Store)
  | [] => Except.ok ([], s)
  | (a, b, c, d) :: rest =>
    match addProduct s a b c d with
    | (Except.error e, _) => Except.error e
    | (Except.ok nextProductID, s₁) =>
      match registerSeq s₁ rest with
      | Except.error e => Except.error e
      | Except.ok (ids, s₂) => Except.ok (nextProductID :: ids, s₂)

/-- The identity counter reads as `n`: the counter key is absent (and `n = 0`)
or holds the persisted value `n`. -/
def CounterOk (s : Store) (n : Nat) : Prop :=
  (s Key.counterKey = none ∧ n = 0) ∨ s Key.counterKey = some (Val.counter n)

/-- The stored history of `productID` reads as the sequence `hs`: the history
key is absent (and `hs = []`) or holds the serialized sequence `hs`. -/
def HistoryOk (s : Store) (productID : Nat) (hs : List ProductHistory) : Prop :=
  (s (Key.historyKey productID) = none ∧ hs = []) ∨
    s (Key.historyKey productID) = some (Val.jsonHistory hs)

/-- A concrete freshly-registered record, for witnesses. -/
def prod1 : Product :=
  { id := 1, name := "widget", description := "a widget", manufactureDate := 1700000000,
    batchNumber := "B1", state := ProductState.PRODUCT_REGISTERED }

/-- A concrete store holding `prod1` in well-formed serialized form under its
record key, no history, no counter. -/
def store1 : Store := Store.put (Key.recordKey 1) (Val.jsonProduct prod1) emptyStore

/-- Store `store1` with malformed bytes under the history key of record 1 (a JSON
object where a JSON array of entries is expected). -/
def storeBadHist : Store := Store.put (Key.historyKey 1) (Val.jsonProduct prod1) store1

/-- Step lemma for id allocation: from a store whose counter reads as `n`,
`AddProduct` succeeds, allocates id `n + 1`, and leaves a store whose counter
reads as `n + 1`. -/
theorem addProduct_allocates (s : Store) (n : Nat) (h : CounterOk s n)
    (a b : String) (c : Nat) (d : String) :
    (addProduct s a b c d).1 = Except.ok (n + 1) ∧
      CounterOk (addProduct s a b c d).2 (n + 1) := by
  rcases h with ⟨h0, rfl⟩ | hc
  · refine ⟨?_, Or.inr ?_⟩
    · simp [addProduct, generateNextProductID, h0]
    · simp [addProduct, generateNextProductID, h0, Store.put]
  · refine ⟨?_, Or.inr ?_⟩
    · simp [addProduct, generateNextProductID, hc]
    · simp [addProduct, generateNextProductID, hc, Store.put]

/-- C1: `register` followed immediately by `getRecord` on the returned id does
NOT return the record: `AddProduct` stores the record as `[]byte(product)`,
which is not the JSON that `RetrieveProductDetails` parses, so the immediate
read fails with `DecodeError`.  Evaluation of the model at the failing input
(an empty world state; `register("widget", "a widget", 1700000000, "B1")`
allocates id 1). -/
theorem addProduct_then_retrieve_decodeError :
    (addProduct emptyStore "widget" "a widget" 1700000000 "B1").1 = Except.ok 1 ∧
    retrieveProductDetails (addProduct emptyStore "widget" "a widget" 1700000000 "B1").2 1 =
      Except.error Err.DecodeError :=
  ⟨rfl, rfl⟩

/-- C2: from a store whose identity counter reads as `n`, a sequence of
`register` calls succeeds and returns the ids `n+1, n+2, …` — each call's id
is the stored counter value plus one (an absent counter counting as zero, by
`CounterOk`), the incremented counter is persisted, and the returned ids are
strictly increasing, hence pairwise distinct. -/
theorem registerSeq_ids (args : List RegArgs) (s : Store) (n : Nat) (h : CounterOk s n) :
    ∃ s', registerSeq s args = Except.ok (List.range' (n + 1) args.length, s') ∧
      CounterOk s' (n + args.length) ∧
      (List.range' (n + 1) args.length).Pairwise (· < ·) := by
  induction args generalizing s n with
  | nil => exact ⟨s, by simp [registerSeq], by simpa using h, by simp⟩
  | cons hd tl ih =>
    obtain ⟨a, b, c, d⟩ := hd
    obtain ⟨h1, h2⟩ := addProduct_allocates s n h a b c d
    obtain ⟨s₂, hs2, hc2, hp2⟩ := ih (addProduct s a b c d).2 (n + 1) h2
    have hpair : addProduct s a b c d = (Except.ok (n + 1), (addProduct s a b c d).2) :=
      Prod.ext h1 rfl
    refine ⟨s₂, ?_, ?_, ?_⟩
    · rw [registerSeq, hpair]
      simp only [hs2]
      simp [List.range'_succ]
    · simpa [Nat.add_assoc, Nat.add_comm, Nat.add_left_comm] using hc2
    · exact List.pairwise_lt_range' (n + 1) (tl.length + 1)

/-- Witness for C2: three `register` calls on the empty store return ids
`[1, 2, 3]` and leave the counter at 3. -/
theorem registerSeq_ids_witness :
    CounterOk emptyStore 0 ∧
    (∃ s', registerSeq emptyStore [("a", "x", 1, "b1"), ("c", "y", 2, "b2"), ("e", "z", 3, "b3")] =
        Except.ok (List.range' 1 3, s') ∧ CounterOk s' 3 ∧
        (List.range' 1 3).Pairwise (· < ·)) ∧
    List.range' 1 3 = [1, 2, 3] :=
  ⟨Or.inl ⟨rfl, rfl⟩,
   registerSeq_ids [("a", "x", 1, "b1"), ("c", "y", 2, "b2"), ("e", "z", 3, "b3")]
     emptyStore 0 (Or.inl ⟨rfl, rfl⟩),
   rfl⟩

/-- C3: the transition policy, exactly: a record stored as `REGISTERED` may
move to `TRANSIT` and is rejected with `InvalidTransitionError` for every
other target; a record in any other state accepts every target. -/
theorem updateProductState_policy (s : Store) (productID : Nat) (p : Product)
    (hp : s (Key.recordKey productID) = some (Val.jsonProduct p)) (t : ProductState) :
    (p.state = ProductState.PRODUCT_REGISTERED →
      (t = ProductState.PRODUCT_TRANSIT →
        (updateProductState s productID t).1 = Except.ok ()) ∧
      (t ≠ ProductState.PRODUCT_TRANSIT →
        (updateProductState s productID t).1 = Except.error Err.InvalidTransitionError)) ∧
    (p.state ≠ ProductState.PRODUCT_REGISTERED →
      (updateProductState s productID t).1 = Except.ok ()) := by
  refine ⟨fun hreg => ⟨fun htr => ?_, fun htr => ?_⟩, fun hreg => ?_⟩
  · simp [updateProductState, retrieveProductDetails, hp, unmarshalProduct, hreg, htr]
  · simp [updateProductState, retrieveProductDetails, hp, unmarshalProduct, hreg, htr]
  · simp [updateProductState, retrieveProductDetails, hp, unmarshalProduct, hreg]

/-- Witness for C3: on the concrete registered record, the move to `TRANSIT`
succeeds and the move to `SOLD` is rejected. -/
theorem updateProductState_policy_witness :
    (updateProductState store1 1 ProductState.PRODUCT_TRANSIT).1 = Except.ok () ∧
    (updateProductState store1 1 ProductState.PRODUCT_SOLD).1 =
      Except.error Err.InvalidTransitionError :=
  ⟨((updateProductState_policy store1 1 prod1 rfl ProductState.PRODUCT_TRANSIT).1 rfl).1 rfl,
   ((updateProductState_policy store1 1 prod1 rfl ProductState.PRODUCT_SOLD).1 rfl).2
     (by decide)⟩

/-- C4: a successful `transition` rewrites only the record's own key — the
stored record becomes the old record with just its `state` field set to the
target — and every other key, in particular the history key, is untouched. -/
theorem updateProductState_frame (s : Store) (productID : Nat) (p : Product)
    (t : ProductState) (hp : s (Key.recordKey productID) = some (Val.jsonProduct p))
    (hok : (updateProductState s productID t).1 = Except.ok ()) :
    (updateProductState s productID t).2 (Key.recordKey productID) =
      some (Val.jsonProduct { p with state := t }) ∧
    ∀ k, k ≠ Key.recordKey productID → (updateProductState s productID t).2 k = s k := by
  by_cases hcond : p.state = ProductState.PRODUCT_REGISTERED ∧
      t ≠ ProductState.PRODUCT_TRANSIT
  · exfalso
    simp [updateProductState, retrieveProductDetails, hp, unmarshalProduct, hcond] at hok
  · constructor
    · simp [updateProductState, retrieveProductDetails, hp, unmarshalProduct, hcond, Store.put]
    · intro k hk
      simp [updateProductState, retrieveProductDetails, hp, unmarshalProduct, hcond,
        Store.put, hk]

/-- Witness for C4: transitioning the concrete registered record to `TRANSIT`
stores the same record with `state = TRANSIT` and leaves the history key of
the record untouched. -/
theorem updateProductState_frame_witness :
    (updateProductState store1 1 ProductState.PRODUCT_TRANSIT).2 (Key.recordKey 1) =
      some (Val.jsonProduct { prod1 with state := ProductState.PRODUCT_TRANSIT }) ∧
    (updateProductState store1 1 ProductState.PRODUCT_TRANSIT).2 (Key.historyKey 1) =
      store1 (Key.historyKey 1) :=
  ⟨(updateProductState_frame store1 1 prod1 ProductState.PRODUCT_TRANSIT rfl rfl).1,
   (updateProductState_frame store1 1 prod1 ProductState.PRODUCT_TRANSIT rfl rfl).2
     (Key.historyKey 1) (by decide)⟩

/-- C5: on a store holding a well-formed record and a history reading as
`hs`, `appendMovement` succeeds and stores, under the history key, exactly
`hs` with one entry appended at the end: `action = "Movement"`, the given
location, the record's state at fetch time, and the transaction timestamp. -/
theorem logProductMovement_appends (s : Store) (txTime productID : Nat)
    (newLocation : String) (p : Product) (hs : List ProductHistory)
    (hp : s (Key.recordKey productID) = some (Val.jsonProduct p))
    (hh : HistoryOk s productID hs) :
    (logProductMovement s txTime productID newLocation).1 = Except.ok () ∧
    (logProductMovement s txTime productID newLocation).2 (Key.historyKey productID) =
      some (Val.jsonHistory (hs ++
        [{ timestamp := txTime, action := "Movement", location := newLocation,
           state := p.state }])) := by
  rcases hh with ⟨hnone, rfl⟩ | hsome
  · constructor <;>
      simp [logProductMovement, retrieveProductDetails, hp, unmarshalProduct, hnone, Store.put]
  · constructor <;>
      simp [logProductMovement, retrieveProductDetails, hp, unmarshalProduct, hsome,
        unmarshalHistory, Store.put]

/-- Witness for C5: three sequential `appendMovement` calls on the concrete
registered record produce a history of length 3, in call order, each entry
carrying the record's state. -/
theorem logProductMovement_appends_witness :
    (logProductMovement (logProductMovement (logProductMovement store1 41 1
        "Warehouse A").2 42 1 "Warehouse A").2 43 1 "Warehouse A").2 (Key.historyKey 1) =
      some (Val.jsonHistory
        [{ timestamp := 41, action := "Movement", location := "Warehouse A",
           state := ProductState.PRODUCT_REGISTERED },
         { timestamp := 42, action := "Movement", location := "Warehouse A",
           state := ProductState.PRODUCT_REGISTERED },
         { timestamp := 43, action := "Movement", location := "Warehouse A",
           state := ProductState.PRODUCT_REGISTERED }]) := by
  have h := logProductMovement_appends
    (logProductMovement (logProductMovement store1 41 1 "Warehouse A").2 42 1
      "Warehouse A").2 43 1 "Warehouse A" prod1
    [{ timestamp := 41, action := "Movement", location := "Warehouse A",
       state := ProductState.PRODUCT_REGISTERED },
     { timestamp := 42, action := "Movement", location := "Warehouse A",
       state := ProductState.PRODUCT_REGISTERED }]
    rfl (Or.inr rfl)
  simpa using h.2

/-- C6: with a well-formed record stored, an absent history key is treated as
the empty sequence (the call succeeds and writes a one-entry history), while
history bytes that are present but unparseable abort the call with
`DecodeError`, the whole store left unchanged — the malformed history is
never replaced. -/
theorem logProductMovement_history_error_handling (s : Store) (txTime productID : Nat)
    (newLocation : String) (p : Product)
    (hp : s (Key.recordKey productID) = some (Val.jsonProduct p)) :
    (s (Key.historyKey productID) = none →
      (logProductMovement s txTime productID newLocation).1 = Except.ok () ∧
      (logProductMovement s txTime productID newLocation).2 (Key.historyKey productID) =
        some (Val.jsonHistory
          [{ timestamp := txTime, action := "Movement", location := newLocation,
             state := p.state }])) ∧
    (∀ v, s (Key.historyKey productID) = some v → unmarshalHistory v = none →
      logProductMovement s txTime productID newLocation = (Except.error Err.DecodeError, s)) := by
  constructor
  · intro hnone
    constructor <;>
      simp [logProductMovement, retrieveProductDetails, hp, unmarshalProduct, hnone, Store.put]
  · intro v hv hu
    simp [logProductMovement, retrieveProductDetails, hp, unmarshalProduct, hv, hu]

/-- Witness for C6: on the concrete store with no history the call succeeds;
on the concrete store with malformed history bytes it fails with
`DecodeError` and the store is unchanged. -/
theorem logProductMovement_history_error_handling_witness :
    (logProductMovement store1 42 1 "Warehouse A").1 = Except.ok () ∧
    logProductMovement storeBadHist 42 1 "Warehouse A" =
      (Except.error Err.DecodeError, storeBadHist) :=
  ⟨((logProductMovement_history_error_handling store1 42 1 "Warehouse A" prod1 rfl).1 rfl).1,
   (logProductMovement_history_error_handling storeBadHist 42 1 "Warehouse A" prod1 rfl).2
     (Val.jsonProduct prod1) rfl rfl⟩

/-- C7: `transition` on a record stored as `REGISTERED` with any target other
than `TRANSIT` returns `InvalidTransitionError` and the resulting world state
is exactly the original store — no write occurs, so the stored record is
unchanged. -/
theorem updateProductState_rejected (s : Store) (productID : Nat) (p : Product)
    (t : ProductState) (hp : s (Key.recordKey productID) = some (Val.jsonProduct p))
    (hreg : p.state = ProductState.PRODUCT_REGISTERED)
    (ht : t ≠ ProductState.PRODUCT_TRANSIT) :
    updateProductState s productID t = (Except.error Err.InvalidTransitionError, s) := by
  simp [updateProductState, retrieveProductDetails, hp, unmarshalProduct, hreg, ht]

/-- Witness for C7: moving the concrete registered record to `SOLD` is
rejected and leaves the store unchanged. -/
theorem updateProductState_rejected_witness :
    updateProductState store1 1 ProductState.PRODUCT_SOLD =
      (Except.error Err.InvalidTransitionError, store1) :=
  updateProductState_rejected store1 1 prod1 ProductState.PRODUCT_SOLD rfl rfl (by decide)

/-- C8: `appendMovement` on an id with no stored record fails with
`NotFoundError` and returns the original store unchanged — in particular the
history key for that id is neither created nor modified. -/
theorem logProductMovement_notFound (s : Store) (txTime productID : Nat)
    (newLocation : String) (h : s (Key.recordKey productID) = none) :
    logProductMovement s txTime productID newLocation = (Except.error Err.NotFoundError, s) := by
  simp [logProductMovement, retrieveProductDetails, h]

/-- Witness for C8: on the empty store, `appendMovement` for id 7 fails with
`NotFoundError` and leaves the store empty. -/
theorem logProductMovement_notFound_witness :
    logProductMovement emptyStore 5 7 "Warehouse A" = (Except.error Err.NotFoundError, emptyStore) :=
  logProductMovement_notFound emptyStore 5 7 "Warehouse A" rfl

/-- C9: `getRecord` fails with `NotFoundError` when the record key is absent,
fails with `DecodeError` when the stored bytes do not parse as a record, and
otherwise returns the parsed record; the embedding is a pure function of the
store (the Go body performs no write). -/
theorem retrieveProductDetails_cases (s : Store) (productID : Nat) :
    (s (Key.recordKey productID) = none →
      retrieveProductDetails s productID = Except.error Err.NotFoundError) ∧
    (∀ v, s (Key.recordKey productID) = some v → unmarshalProduct v = none →
      retrieveProductDetails s productID = Except.error Err.DecodeError) ∧
    (∀ v p, s (Key.recordKey productID) = some v → unmarshalProduct v = some p →
      retrieveProductDetails s productID = Except.ok p) := by
  refine ⟨fun h => ?_, fun v hv hu => ?_, fun v p hv hu => ?_⟩
  · simp [retrieveProductDetails, h]
  · simp [retrieveProductDetails, hv, hu]
  · simp [retrieveProductDetails, hv, hu]

/-- Witness for C9: absent id 1 on the empty store gives `NotFoundError`; a
stored well-formed record is returned; stored non-record bytes give
`DecodeError`. -/
theorem retrieveProductDetails_cases_witness :
    retrieveProductDetails emptyStore 1 = Except.error Err.NotFoundError ∧
    retrieveProductDetails storeBadHist 1 = Except.ok prod1 ∧
    retrieveProductDetails (Store.put (Key.recordKey 2) (Val.jsonHistory []) store1) 2 =
      Except.error Err.DecodeError :=
  ⟨(retrieveProductDetails_cases emptyStore 1).1 rfl,
   (retrieveProductDetails_cases storeBadHist 1).2.2 (Val.jsonProduct prod1) prod1 rfl rfl,
   (retrieveProductDetails_cases (Store.put (Key.recordKey 2) (Val.jsonHistory []) store1) 2).2.1
     (Val.jsonHistory []) rfl rfl⟩

/-- C10: `appendMovement` never touches the record's own key: whatever the
store and whether the call succeeds or fails, the value under
`"PRODUCT-<id>"` after the call equals the value before it. -/
theorem logProductMovement_record_frame (s : Store) (txTime productID : Nat)
    (newLocation : String) :
    (logProductMovement s txTime productID newLocation).2 (Key.recordKey productID) =
      s (Key.recordKey productID) := by
  cases hr : retrieveProductDetails s productID with
  | error e => simp [logProductMovement, hr]
  | ok product =>
    cases hh : s (Key.historyKey productID) with
    | none => simp [logProductMovement, hr, hh, Store.put]
    | some v =>
      cases hu : unmarshalHistory v with
      | none => simp [logProductMovement, hr, hh, hu]
      | some hs => simp [logProductMovement, hr, hh, hu, Store.put]

end ProductDetails
